import Mathlib

/-!
Shallow embedding of the client-side managers of the Kanoon Ki Pechaan
legal-services web application (frontend JavaScript), together with
theorems checking the natural-language specification against the code.

The embedding models:
  * the generic API client (`request` and its error contract);
  * the document manager (`validateFile`, `processFiles`, `handleUpload`,
    the serialized `uploadFile` machine, `filterDocuments`);
  * the chat manager (`loadSessions`, `createNewSession`, `sendMessage`,
    `deleteSession`);
  * the lawyer network manager (`canConnect`).

Asynchronous network calls are modelled by passing the eventual outcome of
the call (`Except String _`: a thrown error message, or the parsed JSON
response) as an explicit argument, and DOM / alert side effects are
modelled as emitted events.
-/

/-- JavaScript `String.prototype.toLowerCase`, modelled on ASCII. -/
def jsToLower (s : String) : String := ⟨s.toList.map Char.toLower⟩

/-- JavaScript `String.prototype.trim`: strip leading and trailing
whitespace. -/
def jsTrim (s : String) : String :=
  ⟨((s.toList.dropWhile Char.isWhitespace).reverse.dropWhile Char.isWhitespace).reverse⟩

/-- Substring containment on character lists (helper for `jsIncludes`). -/
def includesSub (hay need : List Char) : Bool :=
  match hay with
  | [] => need.isEmpty
  | _ :: t => need.isPrefixOf hay || includesSub t need

/-- JavaScript `s.includes(sub)`: `sub` occurs contiguously in `s`. -/
def jsIncludes (s sub : String) : Bool := includesSub s.toList sub.toList

/-- JavaScript `m || d` on an optional string: a missing or empty string is
falsy and yields the default `d`. -/
def jsOrStr (m : Option String) (d : String) : String :=
  match m with
  | some s => if s = "" then d else s
  | none => d

/-- The common REST response shape `{success: bool, message?: string,
...payload}` that every backend endpoint returns. -/
structure ApiResponse (α : Type) where
  success : Bool
  message : Option String
  payload : α
deriving Repr, DecidableEq

/-- `fetch`'s `Response.ok`: the HTTP status is in the 2xx range. -/
def respOk (status : Nat) : Bool := 200 ≤ status && status < 300

/-- The generic message `request` throws when the server supplies none. -/
def httpStatusMsg (status : Nat) : String := "HTTP error! status: " ++ toString status

/-- `API.request(endpoint, options)`: given the outcome of the underlying
`fetch` (a thrown network error, or an HTTP status paired with the parsed
JSON body), return the body on a 2xx status and otherwise throw an error
carrying `data.message || 'HTTP error! status: ...'`. -/
def request {α : Type} (fetch : Except String (Nat × ApiResponse α)) :
    Except String (ApiResponse α) :=
  match fetch with
  | .error e => .error e
  | .ok (status, data) =>
    if respOk status then .ok data
    else .error (jsOrStr data.message (httpStatusMsg status))

/-! ## Document manager (`documents.js`) -/

/-- A browser `File` offered for upload: name, byte size and MIME type. -/
structure JsFile where
  name : String
  size : Nat
  type : String
deriving Repr, DecidableEq

/-- `this.maxFileSize = 50 * 1024 * 1024` (50MB). -/
def maxFileSize : Nat := 50 * 1024 * 1024

/-- `this.allowedTypes`: the MIME-type allow-list of the document manager. -/
def allowedTypes : List String :=
  ["application/pdf", "application/msword",
   "application/vnd.openxmlformats-officedocument.wordprocessingml.document",
   "text/plain"]

/-- Observable events of the document manager: alerts shown to the user,
invocations of `uploadFile`, and network requests actually issued. -/
inductive DEvent where
  /-- `Utils.showAlert(msg, kind)`. -/
  | alert (msg kind : String)
  /-- The method `uploadFile(f)` is invoked. -/
  | uploadFileCall (f : JsFile)
  /-- The network upload request `API.uploadDocument` is issued for `f`. -/
  | uploadReq (f : JsFile)
  /-- `loadDocuments()` refresh after a successful upload. -/
  | reloadDocuments
  /-- `clearUploadForm()` after a successful upload. -/
  | clearForm
deriving Repr, DecidableEq

/-- `DocumentManager.validateFile(file)`: returns whether the file is
accepted, together with the error alerts shown.  An oversized file, or a
file whose MIME type is not in the allow-list, is rejected with a
user-facing error message. -/
def validateFile (f : JsFile) : Bool × List DEvent :=
  if f.size > maxFileSize then
    (false, [.alert ("File \"" ++ f.name ++ "\" is too large. Maximum size is 50MB.") "error"])
  else if !(allowedTypes.contains f.type) then
    (false, [.alert ("File \"" ++ f.name ++ "\" type is not supported. Please upload PDF, DOC, DOCX, or TXT files.") "error"])
  else
    (true, [])

/-- `DocumentManager.processFiles(files)` (the drag-and-drop and
file-picker path): each file is validated and, only when validation
succeeds, `uploadFile` is invoked on it. -/
def processFiles (files : List JsFile) : List DEvent :=
  (files.map (fun f =>
    let v := validateFile f
    v.2 ++ (if v.1 then [DEvent.uploadFileCall f] else []))).flatten

/-- `DocumentManager.handleUpload(e)` (the upload-form submit path): if no
file is selected a warning is shown; otherwise the first selected file is
passed to `uploadFile` directly, with no validation. -/
def handleUpload (selectedFiles : List JsFile) : List DEvent :=
  match selectedFiles with
  | [] => [.alert "Please select a file to upload." "warning"]
  | f :: _ => [.uploadFileCall f]

/-- The `uploadFileCall` events in an event list: the files that reached
`uploadFile`. -/
def uploadsOf (evs : List DEvent) : List JsFile :=
  evs.filterMap (fun e => match e with | .uploadFileCall f => some f | _ => none)

/-- State of the document manager's upload serialization: the real
`uploadInProgress` flag, plus a ghost count of issued, not-yet-settled
upload requests. -/
structure UpState where
  uploadInProgress : Bool
  inFlight : Nat
deriving Repr, DecidableEq

/-- The synchronous prefix of `uploadFile(f)`: if an upload is already in
progress it warns and returns (no request); otherwise it sets the flag
and issues the upload request. -/
def uploadCallStep (s : UpState) (f : JsFile) : UpState × List DEvent :=
  if s.uploadInProgress then
    (s, [.alert "Another upload is in progress. Please wait." "warning"])
  else
    ({ uploadInProgress := true, inFlight := s.inFlight + 1 }, [.uploadReq f])

/-- The events run by the continuation of `uploadFile` once the request
settles: the success branch, the `success:false` branch (which throws into
the shared catch), or the catch branch for a thrown error. -/
def settleEvents (result : Except String (ApiResponse Unit)) : List DEvent :=
  match result with
  | .ok resp =>
    if resp.success then
      [.alert "Document uploaded and analyzed successfully!" "success", .reloadDocuments, .clearForm]
    else
      [.alert ("Upload failed: " ++ jsOrStr resp.message "Upload failed") "error"]
  | .error m => [.alert ("Upload failed: " ++ m) "error"]

/-- The continuation of `uploadFile` when its request settles: the
`finally` block resets `uploadInProgress`.  When no request is pending
there is nothing to settle. -/
def uploadSettleStep (s : UpState) (result : Except String (ApiResponse Unit)) :
    UpState × List DEvent :=
  if s.inFlight = 0 then (s, [])
  else ({ uploadInProgress := false, inFlight := s.inFlight - 1 }, settleEvents result)

/-- Interleavable operations on the upload machine: a call to
`uploadFile`, or the settling of a pending request. -/
inductive UpOp where
  | call (f : JsFile)
  | settle (result : Except String (ApiResponse Unit))

/-- One step of the upload machine. -/
def uploadStep (s : UpState) (op : UpOp) : UpState × List DEvent :=
  match op with
  | .call f => uploadCallStep s f
  | .settle r => uploadSettleStep s r

/-- The upload machine's initial state: no upload in progress. -/
def upInit : UpState := { uploadInProgress := false, inFlight := 0 }

/-- Run a sequence of upload operations from the initial state. -/
def runUpload (ops : List UpOp) : UpState :=
  ops.foldl (fun s op => (uploadStep s op).1) upInit

/-- `uploadFile(file)` viewed atomically (call followed by its settling),
as the document manager runs it for a single upload. -/
def uploadFileRun (s : UpState) (f : JsFile) (result : Except String (ApiResponse Unit)) :
    UpState × List DEvent :=
  let c := uploadCallStep s f
  if s.uploadInProgress then c
  else
    let st := uploadSettleStep c.1 result
    (st.1, c.2 ++ st.2)

/-- A stored document as rendered by the document manager. -/
structure DocRec where
  id : Nat
  title : String
  summary : Option String
  analysis_status : Option String
deriving Repr, DecidableEq

/-- `DocumentManager.filterDocuments(searchTerm)`: the DOM search box value
takes precedence over the argument (`dom?.value || searchTerm`); a
non-empty effective term filters by case-insensitive containment in the
title or (when present) the summary; a non-empty DOM type filter then
keeps only documents with that analysis status.  Returns the rendered
document list. -/
def filterDocuments (docs : List DocRec) (domSearch domType argTerm : String) :
    List DocRec :=
  let searchInput := if domSearch = "" then argTerm else domSearch
  let step1 :=
    if searchInput = "" then docs
    else docs.filter (fun d =>
      jsIncludes (jsToLower d.title) (jsToLower searchInput) ||
      (match d.summary with
       | some s => jsIncludes (jsToLower s) (jsToLower searchInput)
       | none => false))
  if domType = "" then step1
  else step1.filter (fun d =>
    match d.analysis_status with
    | some s => s == domType
    | none => false)

/-- Spec-side search predicate, written from the specification's words: the
document's title contains the term case-insensitively, or its summary is
present and contains the term case-insensitively. -/
def matchesSearchSpec (term : String) (d : DocRec) : Bool :=
  jsIncludes (jsToLower d.title) (jsToLower term) ||
  (match d.summary with
   | some s => jsIncludes (jsToLower s) (jsToLower term)
   | none => false)

/-! ## Chat manager (`chatbot.js`) -/

/-- A chat session as stored in the manager's `sessions` array. -/
structure ChatSession where
  id : Nat
  session_title : String
  updated_at : String
  message_count : Nat
deriving Repr, DecidableEq

/-- The chat manager's client-side state. -/
structure CState where
  currentSessionId : Option Nat
  sessions : List ChatSession
  isTyping : Bool
deriving Repr, DecidableEq

/-- What a call renders into the `chatSessions` sidebar container. -/
inductive SessionsPanel where
  /-- The session list (with the active session highlighted). -/
  | sessionsList (ss : List ChatSession) (active : Option Nat)
  /-- The "No chat sessions yet" empty-state prompt. -/
  | emptyPrompt
  /-- The "Failed to load sessions" failure panel. -/
  | failurePanel
deriving Repr, DecidableEq

/-- Observable events of the chat manager. -/
inductive CEvent where
  /-- `Utils.showAlert(msg, kind)`. -/
  | alert (msg kind : String)
  /-- `POST /chatbot/sessions` issued (create a session). -/
  | postSessionsReq
  /-- `loadSession(id)` invoked (fetches the session's messages). -/
  | loadSessionReq (id : Nat)
  /-- `GET /chatbot/sessions` issued (refresh the session list). -/
  | getSessionsReq
  /-- `POST /chatbot/sessions/{id}/chat` issued with the message text. -/
  | chatReq (id : Nat) (message : String)
  /-- `DELETE /chatbot/sessions/{id}` issued. -/
  | deleteReq (id : Nat)
  /-- The user's message appended to the chat pane. -/
  | uiUserMessage (content : String)
  /-- The AI reply appended to the chat pane. -/
  | uiAssistantMessage (content : String)
  /-- The fixed apology bubble appended when the reply has `success:false`
  ("I apologize, but I encountered an error processing your request..."). -/
  | uiProcessingErrorMessage
  /-- The different fixed apology bubble appended when the chat request
  throws (trouble connecting, try again in a moment). -/
  | uiConnectionErrorMessage
deriving Repr, DecidableEq

/-- `ChatBot.renderSessions()`: the sidebar content rendered from the
stored session list. -/
def renderSessions (ss : List ChatSession) (active : Option Nat) : SessionsPanel :=
  if ss.isEmpty then .emptyPrompt else .sessionsList ss active

/-- `ChatBot.loadSessions()`: on a 2xx `success:true` response the stored
list is replaced and re-rendered; on a 2xx `success:false` response
nothing happens; on a thrown error the failure panel is written into the
sidebar and the stored list is left as it was.  The second component is
what this call writes into the sidebar (`none` = nothing written). -/
def loadSessions (st : CState) (result : Except String (ApiResponse (List ChatSession))) :
    CState × Option SessionsPanel :=
  match result with
  | .ok resp =>
    if resp.success then
      let st1 := { st with sessions := resp.payload }
      (st1, some (renderSessions st1.sessions st1.currentSessionId))
    else (st, none)
  | .error _ => (st, some .failurePanel)

/-- `ChatBot.createNewSession()`: posts a new session; on `success:true`
the session is unshifted onto the list, the list re-rendered, and
`loadSession` selects it (setting `currentSessionId`); on `success:false`
nothing further happens; on a thrown error an alert is shown. -/
def createNewSession (st : CState) (result : Except String (ApiResponse ChatSession)) :
    CState × List CEvent :=
  match result with
  | .ok resp =>
    if resp.success then
      let sess := resp.payload
      ({ st with sessions := sess :: st.sessions, currentSessionId := some sess.id },
       [.postSessionsReq, .loadSessionReq sess.id,
        .alert "New chat session created!" "success"])
    else (st, [.postSessionsReq])
  | .error _ => (st, [.postSessionsReq, .alert "Failed to create new session" "danger"])

/-- `ChatBot.sendMessage()`: trims the input; returns immediately when the
trimmed message is empty or a reply is pending (`isTyping`); creates a
session first when none is selected and gives up if that leaves no
current session; otherwise appends the user message, issues the chat
request, and renders the reply (a distinct apology bubble for a
`success:false` payload and for a thrown request).  On success the
session list is refreshed via `loadSessions`. -/
def sendMessage (st : CState) (raw : String)
    (createResult : Except String (ApiResponse ChatSession))
    (chatResult : Except String (ApiResponse String))
    (refreshResult : Except String (ApiResponse (List ChatSession))) :
    CState × List CEvent :=
  let message := jsTrim raw
  if message = "" || st.isTyping then (st, [])
  else
    let c :=
      match st.currentSessionId with
      | none => createNewSession st createResult
      | some _ => (st, [])
    match c.1.currentSessionId with
    | none => c
    | some sid =>
      let pre := c.2 ++ [.uiUserMessage message, .chatReq sid message]
      match chatResult with
      | .ok resp =>
        if resp.success then
          ((loadSessions c.1 refreshResult).1,
           pre ++ [.uiAssistantMessage resp.payload, .getSessionsReq])
        else (c.1, pre ++ [.uiProcessingErrorMessage])
      | .error _ => (c.1, pre ++ [.uiConnectionErrorMessage])

/-- `ChatBot.deleteSession(sessionId)`: a confirmation dialog guards the
call; on a delete request that does not throw, every session with that id
is filtered out of the local list and, when the deleted session was the
current one, `currentSessionId` is cleared; a thrown delete leaves the
list untouched and shows an alert. -/
def deleteSession (st : CState) (sessionId : Nat) (confirmed : Bool)
    (result : Except String Unit) : CState × List CEvent :=
  if !confirmed then (st, [])
  else
    match result with
    | .error _ => (st, [.deleteReq sessionId, .alert "Failed to delete session" "danger"])
    | .ok _ =>
      ({ st with
          sessions := st.sessions.filter (fun s => s.id != sessionId),
          currentSessionId :=
            if st.currentSessionId = some sessionId then none else st.currentSessionId },
       [.deleteReq sessionId, .alert "Chat session deleted" "success"])

/-! ## Lawyer network manager (`lawyers.js`) -/

/-- The logged-in user record held in `window.currentUser` (`null` when
nobody is logged in). -/
structure UserRec where
  id : Nat
deriving Repr, DecidableEq

/-- A lawyer's connection status, when a connection already exists. -/
inductive ConnStatus where
  | pending
  | accepted
  | declined
deriving Repr, DecidableEq

/-- A lawyer record as returned by the lawyer search. -/
structure LawyerRec where
  id : Nat
  connection_status : Option ConnStatus
deriving Repr, DecidableEq

/-- `LawyerNetwork.canConnect(lawyer)`:
`!lawyer.connection_status && window.currentUser && window.currentUser.id !== lawyer.id`,
with a `null` `window.currentUser` making the whole conjunction falsy. -/
def canConnect (lawyer : LawyerRec) (currentUser : Option UserRec) : Bool :=
  lawyer.connection_status.isNone &&
    (match currentUser with
     | none => false
     | some u => u.id != lawyer.id)

/-- Invariant tying the ghost in-flight count to the `uploadInProgress`
flag: a request is pending exactly while the flag is set. -/
def upInv (s : UpState) : Prop := s.inFlight = (if s.uploadInProgress then 1 else 0)

/-! ## Theorems -/

/-- Helper: `validateFile` accepts exactly the files that are within the
size limit and whose MIME type is in the allow-list. -/
theorem validateFile_fst (f : JsFile) :
    (validateFile f).1 = (decide (f.size ≤ maxFileSize) && allowedTypes.contains f.type) := by
  unfold validateFile
  by_cases hs : f.size > maxFileSize
  · simp [hs, Nat.not_le.mpr hs]
  · have hs' : f.size ≤ maxFileSize := Nat.not_lt.mp hs
    by_cases ht : f.type ∈ allowedTypes
    · simp [hs, hs', ht]
    · simp [hs, hs', ht]

/-- C3: `canConnect` is true exactly when the lawyer has no existing
connection status and the logged-in user's id differs from the lawyer's
id; in particular it is false whenever a connection status is already set
or the viewer is the lawyer themself. -/
theorem canConnect_pure_eligibility (lw : LawyerRec) (cu : Option UserRec) :
    canConnect lw cu = true ↔
      lw.connection_status = none ∧ ∃ u, cu = some u ∧ u.id ≠ lw.id := by
  cases cu with
  | none => simp [canConnect]
  | some u =>
    cases h : lw.connection_status with
    | none => simp [canConnect, h]
    | some s => simp [canConnect, h]

/-- C9: an anonymous viewer (`window.currentUser` null) is never
connection-eligible, whatever the lawyer record holds. -/
theorem canConnect_anonymous_false (lw : LawyerRec) :
    canConnect lw none = false := by
  simp [canConnect]

/-- C6: `API.request` returns the parsed JSON body on a 2xx HTTP status,
and on any other status throws an error carrying the server's `message`
field, falling back to the generic `HTTP error! status: ...` message when
that field is absent (or empty, which JavaScript treats as absent). -/
theorem request_error_contract {α : Type} (status : Nat) (data : ApiResponse α) :
    (200 ≤ status ∧ status < 300 → request (.ok (status, data)) = .ok data) ∧
    (¬(200 ≤ status ∧ status < 300) →
      request (.ok (status, data)) =
        .error (match data.message with
                | some m => if m = "" then "HTTP error! status: " ++ toString status else m
                | none => "HTTP error! status: " ++ toString status)) := by
  constructor
  · intro h
    have hok : respOk status = true := by
      simp [respOk]
      omega
    simp [request, hok]
  · intro h
    have hok : respOk status = false := by
      simp [respOk]
      omega
    cases hm : data.message with
    | none => simp [request, hok, jsOrStr, httpStatusMsg, hm]
    | some m =>
      by_cases he : m = ""
      · simp [request, hok, jsOrStr, httpStatusMsg, hm, he]
      · simp [request, hok, jsOrStr, httpStatusMsg, hm, he]

/-- Witness for C6 at concrete inputs: a 200 response returns its body, a
404 response with a server message throws that message. -/
theorem request_error_contract_witness :
    request (.ok (200, ApiResponse.mk true none ())) = .ok (ApiResponse.mk true none ()) ∧
    request (.ok (404, ApiResponse.mk false (some "Not found") ())) = .error "Not found" := by
  refine ⟨(request_error_contract 200 (ApiResponse.mk true none ())).1 (by omega), ?_⟩
  have h := (request_error_contract 404 (ApiResponse.mk false (some "Not found") ())).2 (by omega)
  simpa using h

/-- C4 (amended): a session-list request that throws displays the failure
panel but leaves the manager's stored session list unchanged, not empty. -/
theorem loadSessions_throw_keeps_list (st : CState) (e : String) :
    loadSessions st (.error e) = (st, some .failurePanel) := rfl

/-- Counterexample to C4 as stated: after a previously successful load has
stored one session, a failed refresh shows the failure panel but the
stored session list is not left empty — the stale list is retained. -/
theorem loadSessions_failure_stale_cex :
    (loadSessions (CState.mk none [ChatSession.mk 1 "Tenant rights" "2025-01-01" 3] false)
        (.error "network down")).1.sessions ≠ [] ∧
    (loadSessions (CState.mk none [ChatSession.mk 1 "Tenant rights" "2025-01-01" 3] false)
        (.error "network down")).2 = some .failurePanel := by
  constructor
  · simp [loadSessions]
  · rfl

/-- C5 (amended): the document manager's `uploadFile` really does treat a
`success:false` payload identically to a thrown request failure — it
rethrows `response.message || 'Upload failed'` into the same catch block,
so state and observable events coincide with those of a request thrown
with that same message. -/
theorem uploadFile_success_false_as_throw (s : UpState) (f : JsFile) (m : Option String) :
    uploadFileRun s f (.ok (ApiResponse.mk false m ())) =
      uploadFileRun s f (.error (jsOrStr m "Upload failed")) := by
  cases hp : s.uploadInProgress with
  | true => simp [uploadFileRun, hp]
  | false => simp [uploadFileRun, hp, uploadCallStep, uploadSettleStep, settleEvents]

/-- Counterexample to C5 as stated: the chat manager's `loadSessions` does
not treat `success:false` like a thrown request — the thrown request
renders the failure panel while the `success:false` response renders
nothing at all. -/
theorem loadSessions_success_false_differs_cex :
    (loadSessions (CState.mk none [] false)
        (.ok (ApiResponse.mk false (some "boom") []))).2 ≠
    (loadSessions (CState.mk none [] false) (.error "boom")).2 := by
  simp [loadSessions]

/-- C10: after a confirmed `deleteSession(id)` whose delete request does
not throw, no session with that id remains in the local list, the other
sessions are kept unchanged (in order), and the current-session pointer is
cleared exactly when it pointed at the deleted session. -/
theorem deleteSession_removes_id (st : CState) (sid : Nat) :
    (deleteSession st sid true (.ok ())).1.sessions.all (fun s => s.id != sid) = true ∧
    (deleteSession st sid true (.ok ())).1.sessions =
      st.sessions.filter (fun s => s.id != sid) ∧
    (deleteSession st sid true (.ok ())).1.currentSessionId =
      (if st.currentSessionId = some sid then none else st.currentSessionId) := by
  refine ⟨?_, rfl, rfl⟩
  simp only [deleteSession, Bool.not_true, List.all_eq_true]
  intro s hs
  exact (List.mem_filter.mp hs).2

/-- C7: with a non-empty search term (whether typed in the search box or
passed as the argument with the box empty) and no type filter selected,
`filterDocuments` renders exactly the documents whose title or (present)
summary contains the term case-insensitively; and whatever the type
filter, every rendered document matches the search term. -/
theorem filterDocuments_search_exact (docs : List DocRec) (term : String)
    (h : term ≠ "") :
    filterDocuments docs "" "" term = docs.filter (matchesSearchSpec term) ∧
    filterDocuments docs term "" term = docs.filter (matchesSearchSpec term) ∧
    ∀ domType, (filterDocuments docs term domType term).all (matchesSearchSpec term) = true := by
  refine ⟨?_, ?_, ?_⟩
  · simp only [filterDocuments, eq_self_iff_true, if_true, if_neg h]
    rfl
  · simp only [filterDocuments, eq_self_iff_true, if_true, if_neg h]
    rfl
  · intro domType
    by_cases hd : domType = ""
    · subst hd
      simp only [filterDocuments, if_neg h, if_pos rfl, List.all_eq_true]
      intro d hdm
      exact (List.mem_filter.mp hdm).2
    · simp only [filterDocuments, if_neg h, if_neg hd, List.all_eq_true]
      intro d hdm
      exact (List.mem_filter.mp (List.mem_filter.mp hdm).1).2

/-- Witness for C7: searching for "lease" keeps the document titled "Lease
Agreement" and the one whose summary mentions a lease clause, and drops
the rest. -/
theorem filterDocuments_search_exact_witness :
    ("lease" : String) ≠ "" ∧
    filterDocuments
        [DocRec.mk 1 "Lease Agreement" none none,
         DocRec.mk 2 "Will" (some "Contains a LEASE clause") (some "completed"),
         DocRec.mk 3 "Deed" none (some "pending")]
        "" "" "lease" =
      [DocRec.mk 1 "Lease Agreement" none none,
       DocRec.mk 2 "Will" (some "Contains a LEASE clause") (some "completed")] := by
  have hne : ("lease" : String) ≠ "" := by decide
  refine ⟨hne, ?_⟩
  rw [(filterDocuments_search_exact
        [DocRec.mk 1 "Lease Agreement" none none,
         DocRec.mk 2 "Will" (some "Contains a LEASE clause") (some "completed"),
         DocRec.mk 3 "Deed" none (some "pending")] "lease" hne).1]
  decide

/-- Helper: `validateFile` never invokes `uploadFile` itself — its event
output contains no `uploadFileCall`. -/
theorem uploadsOf_validateFile (g : JsFile) : uploadsOf (validateFile g).2 = [] := by
  unfold validateFile
  split_ifs <;> rfl

/-- Helper: `uploadsOf` distributes over event-list concatenation. -/
theorem uploadsOf_append (a b : List DEvent) :
    uploadsOf (a ++ b) = uploadsOf a ++ uploadsOf b := by
  simp [uploadsOf]

/-- Helper: on the `processFiles` path, the files passed to `uploadFile`
are exactly the files `validateFile` accepts. -/
theorem uploadsOf_processFiles (files : List JsFile) :
    uploadsOf (processFiles files) = files.filter (fun g => (validateFile g).1) := by
  induction files with
  | nil => rfl
  | cons g gs ih =>
    have h1 : processFiles (g :: gs) =
        ((validateFile g).2 ++ if (validateFile g).1 then [DEvent.uploadFileCall g] else []) ++
          processFiles gs := by
      simp [processFiles]
    rw [h1, uploadsOf_append, uploadsOf_append, ih, uploadsOf_validateFile]
    cases hv : (validateFile g).1 <;> simp [hv, uploadsOf, List.filter_cons]

/-- C1 (amended): on the drag-and-drop / file-picker path (`processFiles`)
the files that reach `uploadFile` are exactly those within the 50MB limit
and with an allow-listed MIME type; `validateFile` accepts exactly those
files and shows one user-facing error alert exactly when it rejects; the
form-submit path (`handleUpload`), however, passes the selected file to
`uploadFile` unvalidated. -/
theorem processFiles_only_valid_uploads (files : List JsFile) (f : JsFile)
    (rest : List JsFile) :
    uploadsOf (processFiles files) =
      files.filter (fun g => decide (g.size ≤ maxFileSize) && allowedTypes.contains g.type) ∧
    ((validateFile f).1 = true ↔ f.size ≤ maxFileSize ∧ f.type ∈ allowedTypes) ∧
    ((validateFile f).1 = false ↔ ∃ msg, (validateFile f).2 = [DEvent.alert msg "error"]) ∧
    handleUpload (f :: rest) = [DEvent.uploadFileCall f] := by
  refine ⟨?_, ?_, ?_, rfl⟩
  · rw [uploadsOf_processFiles]
    exact List.filter_congr (fun g _ => validateFile_fst g)
  · rw [validateFile_fst]
    simp
  · unfold validateFile
    split_ifs
    · exact ⟨fun _ => ⟨_, rfl⟩, fun _ => rfl⟩
    · exact ⟨fun _ => ⟨_, rfl⟩, fun _ => rfl⟩
    · constructor
      · intro hc
        simp at hc
      · rintro ⟨msg, hmsg⟩
        cases hmsg

/-- Counterexample to C1 as stated: a 60MB PDF fails validation, yet the
form-submit handler passes it straight to `uploadFile`, which (with no
upload in progress) issues the network upload request for it. -/
theorem handleUpload_bypasses_validation_cex :
    (JsFile.mk "big.pdf" 62914560 "application/pdf").size > maxFileSize ∧
    (validateFile (JsFile.mk "big.pdf" 62914560 "application/pdf")).1 = false ∧
    handleUpload [JsFile.mk "big.pdf" 62914560 "application/pdf"] =
      [DEvent.uploadFileCall (JsFile.mk "big.pdf" 62914560 "application/pdf")] ∧
    (uploadCallStep (UpState.mk false 0) (JsFile.mk "big.pdf" 62914560 "application/pdf")).2 =
      [DEvent.uploadReq (JsFile.mk "big.pdf" 62914560 "application/pdf")] := by
  refine ⟨by decide, by decide, rfl, rfl⟩

/-- Helper: each upload-machine step preserves the flag/in-flight
invariant. -/
theorem uploadStep_preserves_inv (s : UpState) (op : UpOp) (h : upInv s) :
    upInv (uploadStep s op).1 := by
  cases op with
  | call f =>
    unfold uploadStep uploadCallStep upInv at *
    cases hp : s.uploadInProgress <;> simp [hp] at h ⊢ <;> omega
  | settle r =>
    unfold uploadStep uploadSettleStep upInv at *
    by_cases hz : s.inFlight = 0
    · simpa [hz] using h
    · cases hp : s.uploadInProgress <;> simp [hp, hz] at h ⊢ <;> omega

/-- Helper: the invariant holds along any run of the upload machine. -/
theorem runUploadFrom_inv (ops : List UpOp) (s : UpState) (h : upInv s) :
    upInv (ops.foldl (fun s op => (uploadStep s op).1) s) := by
  induction ops generalizing s with
  | nil => exact h
  | cons op rest ih => exact ih _ (uploadStep_preserves_inv s op h)

/-- C2: a call to `uploadFile` while `uploadInProgress` is set only warns,
changes nothing and issues no request; with the flag clear, the flag is
set in the same synchronous step that issues the request; settling a
pending request resets the flag; and along every interleaving of calls
and settlements at most one upload request is in flight. -/
theorem uploadFile_serialized (ops : List UpOp) (n : Nat) (b : Bool) (f : JsFile)
    (r : Except String (ApiResponse Unit)) :
    (runUpload ops).inFlight ≤ 1 ∧
    uploadCallStep (UpState.mk true n) f =
      (UpState.mk true n, [DEvent.alert "Another upload is in progress. Please wait." "warning"]) ∧
    uploadCallStep (UpState.mk false n) f = (UpState.mk true (n + 1), [DEvent.uploadReq f]) ∧
    (uploadSettleStep (UpState.mk b (n + 1)) r).1.uploadInProgress = false := by
  refine ⟨?_, rfl, rfl, ?_⟩
  · have h := runUploadFrom_inv ops upInit rfl
    unfold upInv at h
    unfold runUpload
    rw [h]
    split <;> simp
  · unfold uploadSettleStep
    simp

/-- C8 (amended): when no reply is pending (`isTyping` false), a call to
`sendMessage` with a non-empty (trimmed) message and no selected session
first creates a session (the create request is issued); the chat request
is then issued within the newly selected session, and if session creation
leaves no current session, no chat request is issued at all. -/
theorem sendMessage_implicit_session (raw : String) (sessions : List ChatSession)
    (createResult : Except String (ApiResponse ChatSession))
    (chatResult : Except String (ApiResponse String))
    (refreshResult : Except String (ApiResponse (List ChatSession)))
    (h : jsTrim raw ≠ "") :
    CEvent.postSessionsReq ∈
      (sendMessage (CState.mk none sessions false) raw createResult chatResult refreshResult).2 ∧
    (∀ sid,
      (createNewSession (CState.mk none sessions false) createResult).1.currentSessionId = some sid →
      CEvent.chatReq sid (jsTrim raw) ∈
        (sendMessage (CState.mk none sessions false) raw createResult chatResult refreshResult).2) ∧
    ((createNewSession (CState.mk none sessions false) createResult).1.currentSessionId = none →
      ∀ sid msg, CEvent.chatReq sid msg ∉
        (sendMessage (CState.mk none sessions false) raw createResult chatResult refreshResult).2) := by
  cases createResult with
  | error e =>
    refine ⟨?_, ?_, ?_⟩ <;> simp [sendMessage, createNewSession, h]
  | ok resp =>
    obtain ⟨suc, msg, sess⟩ := resp
    cases suc with
    | false =>
      refine ⟨?_, ?_, ?_⟩ <;> simp [sendMessage, createNewSession, h]
    | true =>
      cases chatResult with
      | error e2 =>
        refine ⟨?_, ?_, ?_⟩ <;> simp [sendMessage, createNewSession, h]
      | ok r2 =>
        obtain ⟨s2, m2, p2⟩ := r2
        cases s2 <;> refine ⟨?_, ?_, ?_⟩ <;> simp [sendMessage, createNewSession, h]

/-- Witness for C8: with a fresh manager, sending " hello " while the
create request succeeds with session id 7 issues the create request and
then the chat request for session 7 with the trimmed message. -/
theorem sendMessage_implicit_session_witness :
    CEvent.postSessionsReq ∈
      (sendMessage (CState.mk none [] false) " hello "
        (.ok (ApiResponse.mk true none (ChatSession.mk 7 "t" "d" 0)))
        (.ok (ApiResponse.mk true none "reply"))
        (.ok (ApiResponse.mk true none []))).2 ∧
    CEvent.chatReq 7 (jsTrim " hello ") ∈
      (sendMessage (CState.mk none [] false) " hello "
        (.ok (ApiResponse.mk true none (ChatSession.mk 7 "t" "d" 0)))
        (.ok (ApiResponse.mk true none "reply"))
        (.ok (ApiResponse.mk true none []))).2 := by
  have h := sendMessage_implicit_session " hello " []
    (.ok (ApiResponse.mk true none (ChatSession.mk 7 "t" "d" 0)))
    (.ok (ApiResponse.mk true none "reply"))
    (.ok (ApiResponse.mk true none [])) (by decide)
  exact ⟨h.1, h.2.1 7 rfl⟩

/-- Counterexample to C8 as stated: a call with a non-empty message and no
selected session, made while a reply is pending (`isTyping` true), returns
immediately — no session is created and no message is sent. -/
theorem sendMessage_typing_cex :
    sendMessage (CState.mk none [] true) "hello" (.error "x") (.error "x") (.error "x") =
      (CState.mk none [] true, []) := by
  simp [sendMessage]
